import Mathlib

/-!
Shallow embedding of the Tabula persistence core (IndexedDB-backed storage
layer for workspaces, tab groups, tabs, and the trash / recently-deleted
subsystem).  Dates are modelled as integer millisecond timestamps; `Date.now()`
is passed explicitly as a `now : Int` parameter.  Each IndexedDB object store
is modelled as a list of records keyed by `id`; `add` rejects on a primary-key
or declared-unique-index collision, `put` replaces the record with the same
key, `delete` removes the record with the given key and always succeeds.
Fallible operations return `Except`.
-/

namespace Tabula

structure Workspace where
  id : String
  name : String
  isDefault : Bool
  createdAt : Int
  lastAccessedAt : Int
deriving Repr, DecidableEq

structure TabGroup where
  id : String
  workspaceId : String
  name : String
  icon : String
  position : Int
  isArchived : Bool
  archivedAt : Option Int
  createdAt : Int
deriving Repr, DecidableEq

structure Tab where
  id : String
  groupId : String
  url : String
  title : String
  favicon : String
  position : Int
  isArchived : Bool
  archivedAt : Option Int
  createdAt : Int
deriving Repr, DecidableEq

/-- The `type` discriminant of a tombstone: `"tab" | "tabGroup" | "workspace"`. -/
inductive ItemType where
  | workspace
  | tabGroup
  | tab
deriving Repr, DecidableEq

/-- The `data` payload of a tombstone: `Workspace | TabGroup | Tab`. -/
inductive EntityData where
  | workspace (w : Workspace)
  | tabGroup (g : TabGroup)
  | tab (t : Tab)
deriving Repr, DecidableEq

structure DeletedItem where
  id : String
  type : ItemType
  data : EntityData
  deletedAt : Int
  originalLocation : String
  parentId : Option String
deriving Repr, DecidableEq

/-- The four object stores of `TabulaDB` (schema version 4). -/
structure DB where
  workspaces : List Workspace
  tabGroups : List TabGroup
  tabs : List Tab
  deletedItems : List DeletedItem
deriving Repr, DecidableEq

/-- `14 * 24 * 60 * 60 * 1000`: the retention period in milliseconds. -/
def retentionPeriodMs : Int := 14 * 24 * 60 * 60 * 1000

/-- `isWithinRetentionPeriod`: `deletedAt > new Date(Date.now() - retentionPeriodMs)`. -/
def isWithinRetentionPeriod (now deletedAt : Int) : Bool :=
  deletedAt > now - retentionPeriodMs

/-- `validateWorkspaceExists`: truthiness of `workspaces.get(workspaceId)`. -/
def validateWorkspaceExists (db : DB) (workspaceId : String) : Bool :=
  db.workspaces.any (fun w => w.id = workspaceId)

/-- `validateTabGroupExists`: truthiness of `tabGroups.get(groupId)`. -/
def validateTabGroupExists (db : DB) (groupId : String) : Bool :=
  db.tabGroups.any (fun g => g.id = groupId)

/-- `checkIdConflict(id, type)`: does a record with this id already exist in the
primary store selected by `type`? -/
def checkIdConflict (db : DB) (id : String) : ItemType → Bool
  | .workspace => db.workspaces.any (fun w => w.id = id)
  | .tabGroup => db.tabGroups.any (fun g => g.id = id)
  | .tab => db.tabs.any (fun t => t.id = id)

/-- The distinct rejection branches of `restoreDeletedItem`, each carrying the
data interpolated into the corresponding `Error` message string. -/
inductive RestoreError where
  /-- `Deleted item not found`. -/
  | notFound
  /-- `Item has exceeded 14-day retention period and cannot be restored`. -/
  | retentionExpired
  /-- `Cannot restore <type>: ID <id> already exists`. -/
  | idConflict (type : ItemType) (id : String)
  /-- `Cannot restore tab group: parent workspace <workspaceId> does not exist`. -/
  | orphanedWorkspace (workspaceId : String)
  /-- `Cannot restore tab: parent tab group <groupId> does not exist`. -/
  | orphanedTabGroup (groupId : String)
  /-- A tombstone whose payload shape does not match its `type` tag makes the
  source dereference an undefined property inside the `try` block, which
  rejects with the thrown error. -/
  | invalidData
deriving Repr, DecidableEq

/-- `restoreDeletedItem(deletedItemId)`.  Checks run in source order: retention,
id conflict, parent existence (skipped for workspaces); then the snapshot is
`add`ed back to its primary store and the tombstone deleted, resolving `true`.
If the final `add` itself hits a unique-index collision the transaction aborts
(no store is modified) but the promise has already resolved `true`, which the
model renders as `.ok (db, true)` with `db` unchanged. -/
def restoreDeletedItem (db : DB) (now : Int) (deletedItemId : String) :
    Except RestoreError (DB × Bool) :=
  match db.deletedItems.find? (fun d => d.id = deletedItemId) with
  | none => .error .notFound
  | some item =>
    if !isWithinRetentionPeriod now item.deletedAt then
      .error .retentionExpired
    else if checkIdConflict db item.id item.type then
      .error (.idConflict item.type item.id)
    else
      match item.type, item.data with
      | .workspace, .workspace w =>
        if db.workspaces.any (fun x => x.id = w.id) then
          .ok (db, true)
        else
          .ok ({ db with
                  workspaces := db.workspaces ++ [w],
                  deletedItems :=
                    db.deletedItems.filter (fun d => !(d.id = deletedItemId)) },
               true)
      | .tabGroup, .tabGroup g =>
        if !validateWorkspaceExists db g.workspaceId then
          .error (.orphanedWorkspace g.workspaceId)
        else if db.tabGroups.any (fun x =>
            x.id = g.id || (x.workspaceId = g.workspaceId && x.position = g.position)) then
          .ok (db, true)
        else
          .ok ({ db with
                  tabGroups := db.tabGroups ++ [g],
                  deletedItems :=
                    db.deletedItems.filter (fun d => !(d.id = deletedItemId)) },
               true)
      | .tab, .tab t =>
        if !validateTabGroupExists db t.groupId then
          .error (.orphanedTabGroup t.groupId)
        else if db.tabs.any (fun x =>
            x.id = t.id || (x.groupId = t.groupId && x.position = t.position)) then
          .ok (db, true)
        else
          .ok ({ db with
                  tabs := db.tabs ++ [t],
                  deletedItems :=
                    db.deletedItems.filter (fun d => !(d.id = deletedItemId)) },
               true)
      | _, _ => .error .invalidData

/-- `getDeletedItems()`: `deletedItems.getAll()`, resolving `request.result`. -/
def getDeletedItems (db : DB) : List DeletedItem :=
  db.deletedItems

/-- `getAllDeletedItems()`: `deletedItems.getAll()`, resolving
`request.result || []` (`getAll` always yields an array, so the fallback is
the same list). -/
def getAllDeletedItems (db : DB) : List DeletedItem :=
  db.deletedItems

/-- `getExpiredDeletedItems()`: all tombstones failing the retention check. -/
def getExpiredDeletedItems (db : DB) (now : Int) : List DeletedItem :=
  db.deletedItems.filter (fun item => !isWithinRetentionPeriod now item.deletedAt)

/-- `getNonExpiredDeletedItems()`: all tombstones passing the retention check. -/
def getNonExpiredDeletedItems (db : DB) (now : Int) : List DeletedItem :=
  db.deletedItems.filter (fun item => isWithinRetentionPeriod now item.deletedAt)

/-- `cleanupExpiredDeletedItems()`: filters tombstones with
`deletedAt < cutoffDate` (cutoff = `now - 14 days`) and issues a delete request
for each; a failed delete is logged and skipped, a successful one increments
the returned count.  `deleteFails` is the oracle telling which per-item delete
requests the underlying engine fails. -/
def cleanupExpiredDeletedItems (db : DB) (now : Int) (deleteFails : String → Bool) :
    Nat × DB :=
  let expiredItems :=
    db.deletedItems.filter (fun item => item.deletedAt < now - retentionPeriodMs)
  expiredItems.foldl
    (fun acc item =>
      if deleteFails item.id then acc
      else (acc.1 + 1,
            { acc.2 with
              deletedItems := acc.2.deletedItems.filter (fun d => !(d.id = item.id)) }))
    (0, db)

/-- `store.put(r)` on a store whose `keyPath` is given by `idf`: replace the
record with the same primary key, or append when the key is new. -/
def putBy {α : Type} (idf : α → String) (l : List α) (r : α) : List α :=
  if l.any (fun x => idf x = idf r) then
    l.map (fun x => if idf x = idf r then r else x)
  else l ++ [r]

/-- `createWorkspace(workspace)`: `store.add`, mapping a `ConstraintError`
(the only declared unique index on `workspaces` is the primary key) to the
id-specific message. -/
def createWorkspace (db : DB) (workspace : Workspace) : Except String DB :=
  if db.workspaces.any (fun x => x.id = workspace.id) then
    .error ("Workspace with ID '" ++ workspace.id ++ "' already exists")
  else
    .ok { db with workspaces := db.workspaces ++ [workspace] }

/-- `getWorkspace(id)`: resolves `request.result || null`. -/
def getWorkspace (db : DB) (id : String) : Option Workspace :=
  db.workspaces.find? (fun w => w.id = id)

/-- `deleteWorkspace(id)`: `store.delete(id)`, which succeeds whether or not a
record with that key exists. -/
def deleteWorkspace (db : DB) (id : String) : DB :=
  { db with workspaces := db.workspaces.filter (fun w => !(w.id = id)) }

/-- A `Partial<Workspace>`: a present field overrides on merge, an absent one
keeps the prior value. -/
structure WorkspaceUpdates where
  id : Option String := none
  name : Option String := none
  isDefault : Option Bool := none
  createdAt : Option Int := none
  lastAccessedAt : Option Int := none
deriving Repr, DecidableEq

/-- The spread merge `{ ...existingWorkspace, ...updates }`. -/
def mergeWorkspace (w : Workspace) (u : WorkspaceUpdates) : Workspace :=
  { id := u.id.getD w.id
    name := u.name.getD w.name
    isDefault := u.isDefault.getD w.isDefault
    createdAt := u.createdAt.getD w.createdAt
    lastAccessedAt := u.lastAccessedAt.getD w.lastAccessedAt }

/-- `updateWorkspace(id, updates)`: read, reject when absent, merge, `put`. -/
def updateWorkspace (db : DB) (id : String) (updates : WorkspaceUpdates) :
    Except String DB :=
  match db.workspaces.find? (fun w => w.id = id) with
  | none => .error ("Workspace with ID '" ++ id ++ "' not found")
  | some existingWorkspace =>
    .ok { db with
          workspaces :=
            putBy (fun w => w.id) db.workspaces (mergeWorkspace existingWorkspace updates) }

/-- `createTabGroup(tabGroup)`: `store.add` on `tabGroups`, whose declared
unique indexes are the primary key and the composite `workspaceId_position`;
a `ConstraintError` from either is mapped to the single id-specific message. -/
def createTabGroup (db : DB) (tabGroup : TabGroup) : Except String DB :=
  if db.tabGroups.any (fun x =>
      x.id = tabGroup.id ||
      (x.workspaceId = tabGroup.workspaceId && x.position = tabGroup.position)) then
    .error ("Tab group with ID '" ++ tabGroup.id ++ "' already exists")
  else
    .ok { db with tabGroups := db.tabGroups ++ [tabGroup] }

/-- `getTabGroup(id)`: resolves `request.result || null`. -/
def getTabGroup (db : DB) (id : String) : Option TabGroup :=
  db.tabGroups.find? (fun g => g.id = id)

/-- `deleteTabGroup(id)`: `store.delete(id)`, always succeeds. -/
def deleteTabGroup (db : DB) (id : String) : DB :=
  { db with tabGroups := db.tabGroups.filter (fun g => !(g.id = id)) }

/-- A `Partial<TabGroup>`. -/
structure TabGroupUpdates where
  id : Option String := none
  workspaceId : Option String := none
  name : Option String := none
  icon : Option String := none
  position : Option Int := none
  isArchived : Option Bool := none
  archivedAt : Option (Option Int) := none
  createdAt : Option Int := none
deriving Repr, DecidableEq

/-- The spread merge `{ ...existingTabGroup, ...updates }`. -/
def mergeTabGroup (g : TabGroup) (u : TabGroupUpdates) : TabGroup :=
  { id := u.id.getD g.id
    workspaceId := u.workspaceId.getD g.workspaceId
    name := u.name.getD g.name
    icon := u.icon.getD g.icon
    position := u.position.getD g.position
    isArchived := u.isArchived.getD g.isArchived
    archivedAt := u.archivedAt.getD g.archivedAt
    createdAt := u.createdAt.getD g.createdAt }

/-- `updateTabGroup(id, updates)`: read, reject when absent, merge, `put`. -/
def updateTabGroup (db : DB) (id : String) (updates : TabGroupUpdates) :
    Except String DB :=
  match db.tabGroups.find? (fun g => g.id = id) with
  | none => .error ("Tab group with ID '" ++ id ++ "' not found")
  | some existingTabGroup =>
    .ok { db with
          tabGroups :=
            putBy (fun g => g.id) db.tabGroups (mergeTabGroup existingTabGroup updates) }

/-- `archiveTabGroup(id)`: read, reject when absent, `put` with
`isArchived: true, archivedAt: new Date()`. -/
def archiveTabGroup (db : DB) (now : Int) (id : String) : Except String DB :=
  match db.tabGroups.find? (fun g => g.id = id) with
  | none => .error ("Tab group with ID '" ++ id ++ "' not found")
  | some existingTabGroup =>
    .ok { db with
          tabGroups :=
            putBy (fun g => g.id) db.tabGroups
              { existingTabGroup with isArchived := true, archivedAt := some now } }

/-- `unarchiveTabGroup(id)`: read, reject when absent, `put` with
`isArchived: false, archivedAt: undefined`. -/
def unarchiveTabGroup (db : DB) (id : String) : Except String DB :=
  match db.tabGroups.find? (fun g => g.id = id) with
  | none => .error ("Tab group with ID '" ++ id ++ "' not found")
  | some existingTabGroup =>
    .ok { db with
          tabGroups :=
            putBy (fun g => g.id) db.tabGroups
              { existingTabGroup with isArchived := false, archivedAt := none } }

/-- `createTab(tab)`: `store.add` on `tabs` (primary key plus the composite
unique index `groupId_position`). -/
def createTab (db : DB) (tab : Tab) : Except String DB :=
  if db.tabs.any (fun x =>
      x.id = tab.id || (x.groupId = tab.groupId && x.position = tab.position)) then
    .error ("Tab with ID '" ++ tab.id ++ "' already exists")
  else
    .ok { db with tabs := db.tabs ++ [tab] }

/-- `deleteTab(id)`: `store.delete(id)`, always succeeds. -/
def deleteTab (db : DB) (id : String) : DB :=
  { db with tabs := db.tabs.filter (fun t => !(t.id = id)) }

/-- `getAllTabs()`: `tabs.getAll()`. -/
def getAllTabs (db : DB) : List Tab :=
  db.tabs

/-- `archiveTab(id)`: read, reject when absent, `put` with
`isArchived: true, archivedAt: new Date()`. -/
def archiveTab (db : DB) (now : Int) (id : String) : Except String DB :=
  match db.tabs.find? (fun t => t.id = id) with
  | none => .error ("Tab with ID '" ++ id ++ "' not found")
  | some existingTab =>
    .ok { db with
          tabs :=
            putBy (fun t => t.id) db.tabs
              { existingTab with isArchived := true, archivedAt := some now } }

/-- `unarchiveTab(id)`: read, reject when absent, `put` with
`isArchived: false, archivedAt: undefined`. -/
def unarchiveTab (db : DB) (id : String) : Except String DB :=
  match db.tabs.find? (fun t => t.id = id) with
  | none => .error ("Tab with ID '" ++ id ++ "' not found")
  | some existingTab =>
    .ok { db with
          tabs :=
            putBy (fun t => t.id) db.tabs
              { existingTab with isArchived := false, archivedAt := none } }

/-- `getWorkSpaceCount(workspaceId)`: fetch the workspace's groups via the
`workspaceId` index, filter to non-archived; if none remain resolve `0`;
otherwise collect the active group ids, fetch all tabs with
`isArchived = false` via the `isArchived` index, and count those whose
`groupId` is in the active set (re-checking `!tab.isArchived`). -/
def getWorkSpaceCount (db : DB) (workspaceId : String) : Nat :=
  let groups := db.tabGroups.filter (fun g => g.workspaceId = workspaceId)
  let activeGroups := groups.filter (fun g => !g.isArchived)
  if activeGroups.isEmpty then 0
  else
    let activeGroupIds := activeGroups.map (fun g => g.id)
    let nonArchivedTabs := db.tabs.filter (fun t => !t.isArchived)
    (nonArchivedTabs.filter (fun t =>
      activeGroupIds.contains t.groupId && !t.isArchived)).length

/-- `createDeletedItem(deletedItem)`: `store.add` on `deletedItems` (primary
key only). -/
def createDeletedItem (db : DB) (deletedItem : DeletedItem) : Except String DB :=
  if db.deletedItems.any (fun x => x.id = deletedItem.id) then
    .error ("Deleted item with ID '" ++ deletedItem.id ++ "' already exists")
  else
    .ok { db with deletedItems := db.deletedItems ++ [deletedItem] }

/-- The entity id a tombstone snapshot carries. -/
def entityId : EntityData → String
  | .workspace w => w.id
  | .tabGroup g => g.id
  | .tab t => t.id

/-- The `type` tag matching a snapshot's shape. -/
def typeOf : EntityData → ItemType
  | .workspace _ => .workspace
  | .tabGroup _ => .tabGroup
  | .tab _ => .tab

/-- The immediate parent recorded on the tombstone: `groupId` for a tab,
`workspaceId` for a group, absent for a workspace. -/
def parentIdOf : EntityData → Option String
  | .workspace _ => none
  | .tabGroup g => some g.workspaceId
  | .tab t => some t.groupId

/-- Hard delete of an entity: remove the record from its primary store
(`deleteWorkspace` / `deleteTabGroup` / `deleteTab`) and insert the full
snapshot into the trash via `createDeletedItem`, with
`deletedAt = now`, the human-readable `originalLocation`, and the recorded
parent id, per the soft-delete design. -/
def hardDelete (db : DB) (now : Int) (originalLocation : String) (e : EntityData) :
    Except String DB :=
  let removed :=
    match e with
    | .workspace w => deleteWorkspace db w.id
    | .tabGroup g => deleteTabGroup db g.id
    | .tab t => deleteTab db t.id
  createDeletedItem removed
    { id := entityId e
      type := typeOf e
      data := e
      deletedAt := now
      originalLocation := originalLocation
      parentId := parentIdOf e }

/-- Does the parent container recorded in a snapshot exist in `db`? -/
def parentExists (db : DB) : EntityData → Bool
  | .workspace _ => true
  | .tabGroup g => validateWorkspaceExists db g.workspaceId
  | .tab t => validateTabGroupExists db t.groupId

/-- The scoped-uniqueness invariant around a snapshot: any sibling occupying
the snapshot's `(parent, position)` slot is the snapshot's own record. -/
def slotUnique (db : DB) : EntityData → Prop
  | .workspace _ => True
  | .tabGroup g =>
    ∀ g' ∈ db.tabGroups, g'.workspaceId = g.workspaceId → g'.position = g.position →
      g'.id = g.id
  | .tab t =>
    ∀ t' ∈ db.tabs, t'.groupId = t.groupId → t'.position = t.position → t'.id = t.id

/-- The snapshot's record is back in its primary store, found by its own id. -/
def snapshotRestored (db : DB) : EntityData → Prop
  | .workspace w => db.workspaces.find? (fun x => x.id = w.id) = some w
  | .tabGroup g => db.tabGroups.find? (fun x => x.id = g.id) = some g
  | .tab t => db.tabs.find? (fun x => x.id = t.id) = some t

/-- The empty database, as after a fresh schema creation. -/
def emptyDB : DB := { workspaces := [], tabGroups := [], tabs := [], deletedItems := [] }

/-- A workspace with one active and one archived group, each owning three
non-archived tabs (the aggregate-query scenario of the spec). -/
def aggregateDB : DB :=
  { workspaces := [{ id := "w1", name := "Home", isDefault := true,
                     createdAt := 0, lastAccessedAt := 0 }]
    tabGroups :=
      [{ id := "g1", workspaceId := "w1", name := "Active", icon := "",
         position := 0, isArchived := false, archivedAt := none, createdAt := 0 },
       { id := "g2", workspaceId := "w1", name := "Archived", icon := "",
         position := 1, isArchived := true, archivedAt := some 5, createdAt := 0 }]
    tabs :=
      [{ id := "t1", groupId := "g1", url := "https://a.example", title := "a",
         favicon := "", position := 0, isArchived := false, archivedAt := none, createdAt := 0 },
       { id := "t2", groupId := "g1", url := "https://b.example", title := "b",
         favicon := "", position := 1, isArchived := false, archivedAt := none, createdAt := 0 },
       { id := "t3", groupId := "g1", url := "https://c.example", title := "c",
         favicon := "", position := 2, isArchived := false, archivedAt := none, createdAt := 0 },
       { id := "t4", groupId := "g2", url := "https://d.example", title := "d",
         favicon := "", position := 0, isArchived := false, archivedAt := none, createdAt := 0 },
       { id := "t5", groupId := "g2", url := "https://e.example", title := "e",
         favicon := "", position := 1, isArchived := false, archivedAt := none, createdAt := 0 },
       { id := "t6", groupId := "g2", url := "https://f.example", title := "f",
         favicon := "", position := 2, isArchived := false, archivedAt := none, createdAt := 0 }]
    deletedItems := [] }

/-- A store holding a single tab group at `("w1", 0)`. -/
def positionDB : DB :=
  { workspaces := []
    tabGroups :=
      [{ id := "g1", workspaceId := "w1", name := "First", icon := "",
         position := 0, isArchived := false, archivedAt := none, createdAt := 0 }]
    tabs := []
    deletedItems := [] }

/-- A second group colliding with `positionDB` only on `(workspaceId, position)`. -/
def collidingGroup : TabGroup :=
  { id := "g2", workspaceId := "w1", name := "Second", icon := "",
    position := 0, isArchived := false, archivedAt := none, createdAt := 1 }

/-- A workspace tombstone deleted at time 0. -/
def expiredWorkspaceItem : DeletedItem :=
  { id := "dw"
    type := .workspace
    data := .workspace
      { id := "dw", name := "Old", isDefault := false, createdAt := 0, lastAccessedAt := 0 }
    deletedAt := 0
    originalLocation := "Old"
    parentId := none }

/-- A trash store holding only `expiredWorkspaceItem`. -/
def trashDB : DB :=
  { workspaces := [], tabGroups := [], tabs := [], deletedItems := [expiredWorkspaceItem] }

/-- A clock about 23 days past time 0, so `expiredWorkspaceItem` is expired. -/
def trashNow : Int := 2000000000

/-- A tab tombstone deleted at `trashNow`, hence not expired at `trashNow`. -/
def freshTabItem : DeletedItem :=
  { id := "dt"
    type := .tab
    data := .tab
      { id := "dt", groupId := "g1", url := "https://x.example", title := "x",
        favicon := "", position := 9, isArchived := false, archivedAt := none,
        createdAt := 0 }
    deletedAt := trashNow
    originalLocation := "Home/Active"
    parentId := some "g1" }

/-- A trash store with one expired and one fresh tombstone, for the sweep. -/
def sweepDB : DB :=
  { workspaces := [], tabGroups := [], tabs := [],
    deletedItems := [expiredWorkspaceItem, freshTabItem] }

/-- The active group of `aggregateDB`, as a tombstone payload for the
delete-then-restore round trip. -/
def roundTripEntity : EntityData :=
  .tabGroup
    { id := "g1", workspaceId := "w1", name := "Active", icon := "",
      position := 0, isArchived := false, archivedAt := none, createdAt := 0 }

section Helpers

variable {α : Type}

theorem findBy_eq_none_of_any_eq_false (p : α → Bool) (l : List α)
    (h : l.any p = false) : l.find? p = none := by
  induction l with
  | nil => rfl
  | cons a l ih =>
    simp only [List.any_cons, Bool.or_eq_false_iff] at h
    simp only [List.find?_cons, h.1, cond_false]
    exact ih h.2

theorem findBy_append_singleton (p : α → Bool) (l : List α) (a : α)
    (h : l.find? p = none) (ha : p a = true) : (l ++ [a]).find? p = some a := by
  induction l with
  | nil => simp [List.find?, ha]
  | cons b l ih =>
    simp only [List.cons_append, List.find?_cons] at h ⊢
    cases hb : p b with
    | true => simp [hb] at h
    | false =>
      simp only [hb, cond_false] at h ⊢
      exact ih h

theorem any_filter_not_id (idf : α → String) (l : List α) (s : String) :
    ((l.filter fun x => !(idf x = s)).any fun x => idf x = s) = false := by
  induction l with
  | nil => rfl
  | cons a l ih =>
    by_cases ha : idf a = s
    · simp [List.filter_cons, ha, ih]
    · simp [List.filter_cons, ha, ih]

theorem filter_not_id_eq_self (idf : α → String) (l : List α) (s : String)
    (h : l.any (fun x => idf x = s) = false) :
    (l.filter fun x => !(idf x = s)) = l := by
  induction l with
  | nil => rfl
  | cons a l ih =>
    simp only [List.any_cons, Bool.or_eq_false_iff] at h
    have ha : (idf a = s) = False := by
      simpa using h.1
    simp [List.filter_cons, ha, ih h.2]

theorem any_putBy_self (idf : α → String) (l : List α) (r : α) :
    r ∈ putBy idf l r := by
  unfold putBy
  by_cases h : l.any (fun x => idf x = idf r) = true
  · simp only [h, if_true]
    rw [List.any_eq_true] at h
    obtain ⟨x, hx, hid⟩ := h
    rw [List.mem_map]
    exact ⟨x, hx, by simp_all⟩
  · simp only [h, if_false]
    simp

theorem findBy_putBy (idf : α → String) (l : List α) (r : α) (id : String) (t : α)
    (hfind : l.find? (fun x => idf x = id) = some t) (hr : idf r = id) :
    (putBy idf l r).find? (fun x => idf x = id) = some r := by
  have hmem : t ∈ l := List.mem_of_find?_eq_some hfind
  have ht : idf t = id := by simpa using List.find?_some hfind
  have hany : l.any (fun x => idf x = idf r) = true := by
    rw [List.any_eq_true]
    exact ⟨t, hmem, by simp [ht, hr]⟩
  unfold putBy
  rw [if_pos hany]
  clear hany hmem
  induction l with
  | nil => simp at hfind
  | cons a l ih =>
    simp only [List.find?_cons] at hfind
    cases hax : decide (idf a = id) with
    | true =>
      have hax' : idf a = idf r := by
        simp at hax; rw [hax, hr]
      rw [List.map_cons, if_pos hax', List.find?_cons]
      have hrd : decide (idf r = id) = true := by simp [hr]
      rw [hrd]
    | false =>
      have hax' : ¬ idf a = idf r := by
        simp at hax; rw [hr]; exact hax
      rw [hax] at hfind
      simp only [cond_false] at hfind
      rw [List.map_cons, if_neg hax', List.find?_cons, hax]
      exact ih hfind

theorem cleanup_foldl (deleteFails : String → Bool) (todo : List DeletedItem) :
    ∀ (n : Nat) (d : DB),
      todo.foldl
        (fun acc item =>
          if deleteFails item.id then acc
          else (acc.1 + 1,
                { acc.2 with
                  deletedItems := acc.2.deletedItems.filter (fun x => !(x.id = item.id)) }))
        (n, d) =
      (n + (todo.filter (fun i => !deleteFails i.id)).length,
       { d with deletedItems :=
           d.deletedItems.filter (fun x =>
             !((todo.filter (fun i => !deleteFails i.id)).any
               (fun i => i.id = x.id))) }) := by
  induction todo with
  | nil =>
    intro n d
    simp only [List.foldl_nil, List.filter_nil, List.length_nil, Nat.add_zero,
      List.any_nil, Bool.not_false, List.filter_true]
  | cons i rest ih =>
    intro n d
    cases hf : deleteFails i.id with
    | true =>
      simp [hf, ih]
    | false =>
      simp [hf, ih]
      refine ⟨by omega, ?_⟩
      apply List.filter_congr
      intro x _
      have hcomm : (decide (x.id = i.id)) = (decide (i.id = x.id)) :=
        decide_eq_decide.mpr eq_comm
      rw [hcomm, Bool.and_comm]

theorem contains_map_id_eq_any (l : List TabGroup) (s : String) :
    (l.map (fun g => g.id)).contains s = l.any (fun g => s == g.id) := by
  induction l with
  | nil => rfl
  | cons a l ih =>
    simp only [List.map_cons, List.contains_cons, List.any_cons, ih]

end Helpers

/-- C9: the two exported trash-listing functions are equivalent — on every
state of the DeletedItem store, `getDeletedItems` and `getAllDeletedItems`
return the same sequence of records. -/
theorem getDeletedItems_eq_getAllDeletedItems (db : DB) :
    getDeletedItems db = getAllDeletedItems db := rfl

/-- C8 counterexample: on an id absent from the store, `getWorkspace`
succeeds with the null/absent value and `deleteWorkspace` succeeds as a
no-op — neither fails with a typed not-found error, contrary to the claim. -/
theorem getWorkspace_missing_returns_null_concrete :
    getWorkspace emptyDB "w1" = none ∧ deleteWorkspace emptyDB "w1" = emptyDB := by
  constructor
  · rfl
  · rfl

/-- C8 amended: on an id absent from the store, `updateWorkspace` fails with
the not-found error, but `getWorkspace` successfully returns the absent value
and `deleteWorkspace` succeeds leaving the store unchanged. -/
theorem missing_id_behaviour (db : DB) (id : String) (u : WorkspaceUpdates)
    (h : db.workspaces.any (fun w => w.id = id) = false) :
    getWorkspace db id = none ∧
    deleteWorkspace db id = db ∧
    updateWorkspace db id u = .error ("Workspace with ID '" ++ id ++ "' not found") := by
  have hfind : db.workspaces.find? (fun w => w.id = id) = none :=
    findBy_eq_none_of_any_eq_false _ _ h
  refine ⟨hfind, ?_, ?_⟩
  · unfold deleteWorkspace
    rw [filter_not_id_eq_self (fun w => w.id) db.workspaces id h]
  · unfold updateWorkspace
    rw [hfind]

/-- C8 amended, witnessed at a concrete input. -/
theorem missing_id_behaviour_witness :
    getWorkspace emptyDB "w9" = none ∧
    deleteWorkspace emptyDB "w9" = emptyDB ∧
    updateWorkspace emptyDB "w9" {} = .error "Workspace with ID 'w9' not found" :=
  missing_id_behaviour emptyDB "w9" {} (by decide)

/-- C3 counterexample: creating a second group that collides with an existing
one only on `(workspaceId, position)` — its primary key `g2` is fresh — is
rejected with the message `Tab group with ID 'g2' already exists`, which
reports a primary-key collision that did not happen; the surfaced message
does not identify which uniqueness rule was violated. -/
theorem createTabGroup_message_misidentifies_rule :
    createTabGroup positionDB collidingGroup =
      .error "Tab group with ID 'g2' already exists" ∧
    positionDB.tabGroups.any (fun x => x.id = "g2") = false := by
  constructor
  · rfl
  · rfl

/-- C3 amended: a create call for a second TabGroup with the same
`(workspaceId, position)` pair, or the same primary-key id, fails with the
duplicate-constraint error and leaves the store unchanged (no `.ok` state is
produced); but the surfaced message is always the primary-key wording
`Tab group with ID '<id>' already exists`, whichever uniqueness rule was
actually violated. -/
theorem createTabGroup_duplicate_rejected (db : DB) (g : TabGroup)
    (h : db.tabGroups.any (fun x =>
        x.id = g.id ||
        (x.workspaceId = g.workspaceId && x.position = g.position)) = true) :
    createTabGroup db g = .error ("Tab group with ID '" ++ g.id ++ "' already exists") ∧
    ∀ db', createTabGroup db g ≠ .ok db' := by
  unfold createTabGroup
  rw [if_pos h]
  exact ⟨rfl, fun db' hc => Except.noConfusion hc⟩

/-- C3 amended, witnessed at the concrete position-colliding input. -/
theorem createTabGroup_duplicate_rejected_witness :
    createTabGroup positionDB collidingGroup =
      .error "Tab group with ID 'g2' already exists" ∧
    ∀ db', createTabGroup positionDB collidingGroup ≠ .ok db' :=
  createTabGroup_duplicate_rejected positionDB collidingGroup (by decide)

/-- C1: `restoreDeletedItem` on an existing tombstone runs its three checks in
the fixed order retention, id-conflict, parent-existence, short-circuiting on
the first failure: an expired tombstone fails with the retention error no
matter what else holds; a within-retention tombstone with an occupied id fails
with the id-conflict error no matter whether its parent exists; a
within-retention, conflict-free tabGroup (resp. tab) tombstone whose recorded
`workspaceId` (resp. `groupId`) resolves to no record fails with the orphaned
parent error naming the missing parent id; a workspace tombstone undergoes no
parent check and is restored. -/
theorem restoreDeletedItem_check_order (db : DB) (now : Int) (item : DeletedItem)
    (hfind : db.deletedItems.find? (fun d => d.id = item.id) = some item) :
    (isWithinRetentionPeriod now item.deletedAt = false →
      restoreDeletedItem db now item.id = .error .retentionExpired)
    ∧
    (isWithinRetentionPeriod now item.deletedAt = true →
      checkIdConflict db item.id item.type = true →
      restoreDeletedItem db now item.id = .error (.idConflict item.type item.id))
    ∧
    (∀ g : TabGroup, isWithinRetentionPeriod now item.deletedAt = true →
      checkIdConflict db item.id item.type = false →
      item.type = .tabGroup → item.data = .tabGroup g →
      validateWorkspaceExists db g.workspaceId = false →
      restoreDeletedItem db now item.id = .error (.orphanedWorkspace g.workspaceId))
    ∧
    (∀ t : Tab, isWithinRetentionPeriod now item.deletedAt = true →
      checkIdConflict db item.id item.type = false →
      item.type = .tab → item.data = .tab t →
      validateTabGroupExists db t.groupId = false →
      restoreDeletedItem db now item.id = .error (.orphanedTabGroup t.groupId))
    ∧
    (∀ w : Workspace, isWithinRetentionPeriod now item.deletedAt = true →
      checkIdConflict db item.id item.type = false →
      item.type = .workspace → item.data = .workspace w → w.id = item.id →
      ∃ db', restoreDeletedItem db now item.id = .ok (db', true)) := by
  refine ⟨?_, ?_, ?_, ?_, ?_⟩
  · intro hret
    simp [restoreDeletedItem, hfind, hret]
  · intro hret hconf
    simp [restoreDeletedItem, hfind, hret, hconf]
  · intro g hret hconf htype hdata hpar
    rw [htype] at hconf
    simp [restoreDeletedItem, hfind, hret, hconf, htype, hdata, hpar]
  · intro t hret hconf htype hdata hpar
    rw [htype] at hconf
    simp [restoreDeletedItem, hfind, hret, hconf, htype, hdata, hpar]
  · intro w hret hconf htype hdata hid
    rw [htype] at hconf
    have hadd : (db.workspaces.any fun x => decide (x.id = w.id)) = false := by
      simpa [checkIdConflict, hid] using hconf
    refine ⟨{ db with
              workspaces := db.workspaces ++ [w],
              deletedItems := db.deletedItems.filter (fun d => !(d.id = item.id)) }, ?_⟩
    simp [restoreDeletedItem, hfind, hret, hconf, htype, hdata, hadd]

/-- C1, witnessed at a concrete tombstone (expired, so the retention conjunct
fires). -/
theorem restoreDeletedItem_check_order_witness :
    (isWithinRetentionPeriod trashNow expiredWorkspaceItem.deletedAt = false →
      restoreDeletedItem trashDB trashNow expiredWorkspaceItem.id =
        .error .retentionExpired)
    ∧
    (isWithinRetentionPeriod trashNow expiredWorkspaceItem.deletedAt = true →
      checkIdConflict trashDB expiredWorkspaceItem.id expiredWorkspaceItem.type = true →
      restoreDeletedItem trashDB trashNow expiredWorkspaceItem.id =
        .error (.idConflict expiredWorkspaceItem.type expiredWorkspaceItem.id))
    ∧
    (∀ g : TabGroup, isWithinRetentionPeriod trashNow expiredWorkspaceItem.deletedAt = true →
      checkIdConflict trashDB expiredWorkspaceItem.id expiredWorkspaceItem.type = false →
      expiredWorkspaceItem.type = .tabGroup → expiredWorkspaceItem.data = .tabGroup g →
      validateWorkspaceExists trashDB g.workspaceId = false →
      restoreDeletedItem trashDB trashNow expiredWorkspaceItem.id =
        .error (.orphanedWorkspace g.workspaceId))
    ∧
    (∀ t : Tab, isWithinRetentionPeriod trashNow expiredWorkspaceItem.deletedAt = true →
      checkIdConflict trashDB expiredWorkspaceItem.id expiredWorkspaceItem.type = false →
      expiredWorkspaceItem.type = .tab → expiredWorkspaceItem.data = .tab t →
      validateTabGroupExists trashDB t.groupId = false →
      restoreDeletedItem trashDB trashNow expiredWorkspaceItem.id =
        .error (.orphanedTabGroup t.groupId))
    ∧
    (∀ w : Workspace, isWithinRetentionPeriod trashNow expiredWorkspaceItem.deletedAt = true →
      checkIdConflict trashDB expiredWorkspaceItem.id expiredWorkspaceItem.type = false →
      expiredWorkspaceItem.type = .workspace → expiredWorkspaceItem.data = .workspace w →
      w.id = expiredWorkspaceItem.id →
      ∃ db', restoreDeletedItem trashDB trashNow expiredWorkspaceItem.id =
        .ok (db', true)) :=
  restoreDeletedItem_check_order trashDB trashNow expiredWorkspaceItem (by decide)

/-- C4: restorability and expiry agree on the retention boundary — a tombstone
whose `deletedAt` is more than 14 days before `now` is rejected by
`restoreDeletedItem` with the retention error and listed by
`getExpiredDeletedItems`, while one deleted 13 days ago passes the retention
check and is excluded from the expired-items query. -/
theorem retention_expiry_boundary (db : DB) (now : Int) (item : DeletedItem)
    (hfind : db.deletedItems.find? (fun d => d.id = item.id) = some item) :
    (item.deletedAt < now - retentionPeriodMs →
      restoreDeletedItem db now item.id = .error .retentionExpired ∧
      item ∈ getExpiredDeletedItems db now)
    ∧
    (item.deletedAt = now - 13 * 24 * 60 * 60 * 1000 →
      isWithinRetentionPeriod now item.deletedAt = true ∧
      item ∉ getExpiredDeletedItems db now) := by
  have hmem : item ∈ db.deletedItems := List.mem_of_find?_eq_some hfind
  constructor
  · intro h
    have hret : isWithinRetentionPeriod now item.deletedAt = false := by
      simp only [isWithinRetentionPeriod, decide_eq_false_iff_not, not_lt]
      omega
    constructor
    · simp [restoreDeletedItem, hfind, hret]
    · simp [getExpiredDeletedItems, List.mem_filter, hmem, hret]
  · intro h
    have hret : isWithinRetentionPeriod now item.deletedAt = true := by
      simp only [isWithinRetentionPeriod, retentionPeriodMs, decide_eq_true_eq, h]
      omega
    constructor
    · exact hret
    · simp [getExpiredDeletedItems, List.mem_filter, hret]

/-- C4, witnessed at a concrete expired tombstone. -/
theorem retention_expiry_boundary_witness :
    (expiredWorkspaceItem.deletedAt < trashNow - retentionPeriodMs →
      restoreDeletedItem trashDB trashNow expiredWorkspaceItem.id =
        .error .retentionExpired ∧
      expiredWorkspaceItem ∈ getExpiredDeletedItems trashDB trashNow)
    ∧
    (expiredWorkspaceItem.deletedAt = trashNow - 13 * 24 * 60 * 60 * 1000 →
      isWithinRetentionPeriod trashNow expiredWorkspaceItem.deletedAt = true ∧
      expiredWorkspaceItem ∉ getExpiredDeletedItems trashDB trashNow) :=
  retention_expiry_boundary trashDB trashNow expiredWorkspaceItem (by decide)

/-- C7: `update(id, updates)` fails with the not-found error when no record
with that id exists, and otherwise performs read-modify-merge-write: the store
then holds the merged record, in which every field present in `updates` takes
the new value and every absent field retains its prior value — shown for the
Workspace and TabGroup stores. -/
theorem update_merge_semantics (db : DB) (id : String)
    (uw : WorkspaceUpdates) (ug : TabGroupUpdates) :
    (db.workspaces.find? (fun w => w.id = id) = none →
      updateWorkspace db id uw = .error ("Workspace with ID '" ++ id ++ "' not found"))
    ∧
    (∀ ex, db.workspaces.find? (fun w => w.id = id) = some ex →
      ∃ db', updateWorkspace db id uw = .ok db' ∧
        mergeWorkspace ex uw ∈ db'.workspaces ∧
        (∀ v, uw.id = some v → (mergeWorkspace ex uw).id = v) ∧
        (uw.id = none → (mergeWorkspace ex uw).id = ex.id) ∧
        (∀ v, uw.name = some v → (mergeWorkspace ex uw).name = v) ∧
        (uw.name = none → (mergeWorkspace ex uw).name = ex.name) ∧
        (∀ v, uw.isDefault = some v → (mergeWorkspace ex uw).isDefault = v) ∧
        (uw.isDefault = none → (mergeWorkspace ex uw).isDefault = ex.isDefault) ∧
        (∀ v, uw.createdAt = some v → (mergeWorkspace ex uw).createdAt = v) ∧
        (uw.createdAt = none → (mergeWorkspace ex uw).createdAt = ex.createdAt) ∧
        (∀ v, uw.lastAccessedAt = some v → (mergeWorkspace ex uw).lastAccessedAt = v) ∧
        (uw.lastAccessedAt = none →
          (mergeWorkspace ex uw).lastAccessedAt = ex.lastAccessedAt))
    ∧
    (db.tabGroups.find? (fun g => g.id = id) = none →
      updateTabGroup db id ug = .error ("Tab group with ID '" ++ id ++ "' not found"))
    ∧
    (∀ ex, db.tabGroups.find? (fun g => g.id = id) = some ex →
      ∃ db', updateTabGroup db id ug = .ok db' ∧
        mergeTabGroup ex ug ∈ db'.tabGroups ∧
        (∀ v, ug.id = some v → (mergeTabGroup ex ug).id = v) ∧
        (ug.id = none → (mergeTabGroup ex ug).id = ex.id) ∧
        (∀ v, ug.workspaceId = some v → (mergeTabGroup ex ug).workspaceId = v) ∧
        (ug.workspaceId = none → (mergeTabGroup ex ug).workspaceId = ex.workspaceId) ∧
        (∀ v, ug.name = some v → (mergeTabGroup ex ug).name = v) ∧
        (ug.name = none → (mergeTabGroup ex ug).name = ex.name) ∧
        (∀ v, ug.icon = some v → (mergeTabGroup ex ug).icon = v) ∧
        (ug.icon = none → (mergeTabGroup ex ug).icon = ex.icon) ∧
        (∀ v, ug.position = some v → (mergeTabGroup ex ug).position = v) ∧
        (ug.position = none → (mergeTabGroup ex ug).position = ex.position) ∧
        (∀ v, ug.isArchived = some v → (mergeTabGroup ex ug).isArchived = v) ∧
        (ug.isArchived = none → (mergeTabGroup ex ug).isArchived = ex.isArchived) ∧
        (∀ v, ug.archivedAt = some v → (mergeTabGroup ex ug).archivedAt = v) ∧
        (ug.archivedAt = none → (mergeTabGroup ex ug).archivedAt = ex.archivedAt) ∧
        (∀ v, ug.createdAt = some v → (mergeTabGroup ex ug).createdAt = v) ∧
        (ug.createdAt = none → (mergeTabGroup ex ug).createdAt = ex.createdAt)) := by
  refine ⟨?_, ?_, ?_, ?_⟩
  · intro h
    simp [updateWorkspace, h]
  · intro ex hfind
    refine ⟨{ db with
              workspaces := putBy (fun w => w.id) db.workspaces (mergeWorkspace ex uw) },
            by simp [updateWorkspace, hfind], any_putBy_self _ _ _, ?_⟩
    refine ⟨?_, ?_, ?_, ?_, ?_, ?_, ?_, ?_, ?_, ?_⟩ <;>
      first
        | (intro v h; simp [mergeWorkspace, h])
        | (intro h; simp [mergeWorkspace, h])
  · intro h
    simp [updateTabGroup, h]
  · intro ex hfind
    refine ⟨{ db with
              tabGroups := putBy (fun g => g.id) db.tabGroups (mergeTabGroup ex ug) },
            by simp [updateTabGroup, hfind], any_putBy_self _ _ _, ?_⟩
    refine ⟨?_, ?_, ?_, ?_, ?_, ?_, ?_, ?_, ?_, ?_, ?_, ?_, ?_, ?_, ?_, ?_⟩ <;>
      first
        | (intro v h; simp [mergeTabGroup, h])
        | (intro h; simp [mergeTabGroup, h])

/-- C7, witnessed: updating a present record merges fields and updating a
missing record is rejected. -/
theorem update_merge_semantics_witness :
    (aggregateDB.workspaces.find? (fun w => w.id = "w1") = none →
      updateWorkspace aggregateDB "w1" { name := some "Renamed" } =
        .error "Workspace with ID 'w1' not found")
    ∧
    (∀ ex, aggregateDB.workspaces.find? (fun w => w.id = "w1") = some ex →
      ∃ db', updateWorkspace aggregateDB "w1" { name := some "Renamed" } = .ok db' ∧
        mergeWorkspace ex { name := some "Renamed" } ∈ db'.workspaces ∧
        (∀ v, ({ name := some "Renamed" } : WorkspaceUpdates).id = some v →
          (mergeWorkspace ex { name := some "Renamed" }).id = v) ∧
        (({ name := some "Renamed" } : WorkspaceUpdates).id = none →
          (mergeWorkspace ex { name := some "Renamed" }).id = ex.id) ∧
        (∀ v, ({ name := some "Renamed" } : WorkspaceUpdates).name = some v →
          (mergeWorkspace ex { name := some "Renamed" }).name = v) ∧
        (({ name := some "Renamed" } : WorkspaceUpdates).name = none →
          (mergeWorkspace ex { name := some "Renamed" }).name = ex.name) ∧
        (∀ v, ({ name := some "Renamed" } : WorkspaceUpdates).isDefault = some v →
          (mergeWorkspace ex { name := some "Renamed" }).isDefault = v) ∧
        (({ name := some "Renamed" } : WorkspaceUpdates).isDefault = none →
          (mergeWorkspace ex { name := some "Renamed" }).isDefault = ex.isDefault) ∧
        (∀ v, ({ name := some "Renamed" } : WorkspaceUpdates).createdAt = some v →
          (mergeWorkspace ex { name := some "Renamed" }).createdAt = v) ∧
        (({ name := some "Renamed" } : WorkspaceUpdates).createdAt = none →
          (mergeWorkspace ex { name := some "Renamed" }).createdAt = ex.createdAt) ∧
        (∀ v, ({ name := some "Renamed" } : WorkspaceUpdates).lastAccessedAt = some v →
          (mergeWorkspace ex { name := some "Renamed" }).lastAccessedAt = v) ∧
        (({ name := some "Renamed" } : WorkspaceUpdates).lastAccessedAt = none →
          (mergeWorkspace ex { name := some "Renamed" }).lastAccessedAt = ex.lastAccessedAt))
    ∧
    (aggregateDB.tabGroups.find? (fun g => g.id = "w1") = none →
      updateTabGroup aggregateDB "w1" {} = .error "Tab group with ID 'w1' not found")
    ∧
    (∀ ex, aggregateDB.tabGroups.find? (fun g => g.id = "w1") = some ex →
      ∃ db', updateTabGroup aggregateDB "w1" {} = .ok db' ∧
        mergeTabGroup ex {} ∈ db'.tabGroups ∧
        (∀ v, ({} : TabGroupUpdates).id = some v → (mergeTabGroup ex {}).id = v) ∧
        (({} : TabGroupUpdates).id = none → (mergeTabGroup ex {}).id = ex.id) ∧
        (∀ v, ({} : TabGroupUpdates).workspaceId = some v →
          (mergeTabGroup ex {}).workspaceId = v) ∧
        (({} : TabGroupUpdates).workspaceId = none →
          (mergeTabGroup ex {}).workspaceId = ex.workspaceId) ∧
        (∀ v, ({} : TabGroupUpdates).name = some v → (mergeTabGroup ex {}).name = v) ∧
        (({} : TabGroupUpdates).name = none → (mergeTabGroup ex {}).name = ex.name) ∧
        (∀ v, ({} : TabGroupUpdates).icon = some v → (mergeTabGroup ex {}).icon = v) ∧
        (({} : TabGroupUpdates).icon = none → (mergeTabGroup ex {}).icon = ex.icon) ∧
        (∀ v, ({} : TabGroupUpdates).position = some v →
          (mergeTabGroup ex {}).position = v) ∧
        (({} : TabGroupUpdates).position = none →
          (mergeTabGroup ex {}).position = ex.position) ∧
        (∀ v, ({} : TabGroupUpdates).isArchived = some v →
          (mergeTabGroup ex {}).isArchived = v) ∧
        (({} : TabGroupUpdates).isArchived = none →
          (mergeTabGroup ex {}).isArchived = ex.isArchived) ∧
        (∀ v, ({} : TabGroupUpdates).archivedAt = some v →
          (mergeTabGroup ex {}).archivedAt = v) ∧
        (({} : TabGroupUpdates).archivedAt = none →
          (mergeTabGroup ex {}).archivedAt = ex.archivedAt) ∧
        (∀ v, ({} : TabGroupUpdates).createdAt = some v →
          (mergeTabGroup ex {}).createdAt = v) ∧
        (({} : TabGroupUpdates).createdAt = none →
          (mergeTabGroup ex {}).createdAt = ex.createdAt)) :=
  update_merge_semantics aggregateDB "w1" { name := some "Renamed" } {}

/-- C10: archive then unarchive round-trips — for an existing non-archived
Tab (resp. TabGroup) with `archivedAt` absent, `archiveTab` then
`unarchiveTab` (resp. `archiveTabGroup` then `unarchiveTabGroup`) restores a
record equal to the original: `isArchived` is false again, `archivedAt` is
absent again, and every other field is unchanged. -/
theorem archive_unarchive_roundtrip (db : DB) (now : Int) (id : String) :
    (∀ t : Tab, db.tabs.find? (fun x => x.id = id) = some t →
      t.isArchived = false → t.archivedAt = none →
      ∃ db1, archiveTab db now id = .ok db1 ∧
      ∃ db2, unarchiveTab db1 id = .ok db2 ∧
        db2.tabs.find? (fun x => x.id = id) = some t)
    ∧
    (∀ g : TabGroup, db.tabGroups.find? (fun x => x.id = id) = some g →
      g.isArchived = false → g.archivedAt = none →
      ∃ db1, archiveTabGroup db now id = .ok db1 ∧
      ∃ db2, unarchiveTabGroup db1 id = .ok db2 ∧
        db2.tabGroups.find? (fun x => x.id = id) = some g) := by
  constructor
  · intro t hfind h1 h2
    have htid : t.id = id := by simpa using List.find?_some hfind
    refine ⟨{ db with
              tabs := putBy (fun x => x.id) db.tabs
                { t with isArchived := true, archivedAt := some now } },
            by simp [archiveTab, hfind], ?_⟩
    have hfind1 :
        (putBy (fun x => x.id) db.tabs
          { t with isArchived := true, archivedAt := some now }).find?
          (fun x => x.id = id) =
        some { t with isArchived := true, archivedAt := some now } :=
      findBy_putBy (fun x => x.id) db.tabs
        { t with isArchived := true, archivedAt := some now } id t hfind htid
    have hback :
        ({ { t with isArchived := true, archivedAt := some now } with
            isArchived := false, archivedAt := none } : Tab) = t := by
      obtain ⟨ti, tg, tu, tt, tf, tp, ta, taa, tc⟩ := t
      simp only at h1 h2
      rw [h1, h2]
    refine ⟨{ db with
              tabs := putBy (fun x => x.id)
                (putBy (fun x => x.id) db.tabs
                  { t with isArchived := true, archivedAt := some now })
                { t with isArchived := false, archivedAt := none } },
            by simp [unarchiveTab, hfind1], ?_⟩
    have := findBy_putBy (fun x => x.id)
      (putBy (fun x => x.id) db.tabs { t with isArchived := true, archivedAt := some now })
      ({ t with isArchived := false, archivedAt := none }) id
      ({ t with isArchived := true, archivedAt := some now }) hfind1 htid
    rw [hback] at this ⊢
    exact this
  · intro g hfind h1 h2
    have hgid : g.id = id := by simpa using List.find?_some hfind
    refine ⟨{ db with
              tabGroups := putBy (fun x => x.id) db.tabGroups
                { g with isArchived := true, archivedAt := some now } },
            by simp [archiveTabGroup, hfind], ?_⟩
    have hfind1 :
        (putBy (fun x => x.id) db.tabGroups
          { g with isArchived := true, archivedAt := some now }).find?
          (fun x => x.id = id) =
        some { g with isArchived := true, archivedAt := some now } :=
      findBy_putBy (fun x => x.id) db.tabGroups
        { g with isArchived := true, archivedAt := some now } id g hfind hgid
    have hback :
        ({ { g with isArchived := true, archivedAt := some now } with
            isArchived := false, archivedAt := none } : TabGroup) = g := by
      obtain ⟨gi, gw, gn, gc, gp, ga, gaa, gcr⟩ := g
      simp only at h1 h2
      rw [h1, h2]
    refine ⟨{ db with
              tabGroups := putBy (fun x => x.id)
                (putBy (fun x => x.id) db.tabGroups
                  { g with isArchived := true, archivedAt := some now })
                { g with isArchived := false, archivedAt := none } },
            by simp [unarchiveTabGroup, hfind1], ?_⟩
    have := findBy_putBy (fun x => x.id)
      (putBy (fun x => x.id) db.tabGroups
        { g with isArchived := true, archivedAt := some now })
      ({ g with isArchived := false, archivedAt := none }) id
      ({ g with isArchived := true, archivedAt := some now }) hfind1 hgid
    rw [hback] at this ⊢
    exact this

/-- C10, witnessed on a concrete tab and tab group. -/
theorem archive_unarchive_roundtrip_witness :
    (∀ t : Tab, aggregateDB.tabs.find? (fun x => x.id = "t1") = some t →
      t.isArchived = false → t.archivedAt = none →
      ∃ db1, archiveTab aggregateDB 7 "t1" = .ok db1 ∧
      ∃ db2, unarchiveTab db1 "t1" = .ok db2 ∧
        db2.tabs.find? (fun x => x.id = "t1") = some t)
    ∧
    (∀ g : TabGroup, aggregateDB.tabGroups.find? (fun x => x.id = "t1") = some g →
      g.isArchived = false → g.archivedAt = none →
      ∃ db1, archiveTabGroup aggregateDB 7 "t1" = .ok db1 ∧
      ∃ db2, unarchiveTabGroup db1 "t1" = .ok db2 ∧
        db2.tabGroups.find? (fun x => x.id = "t1") = some g) :=
  archive_unarchive_roundtrip aggregateDB 7 "t1"

/-- C5: the active-workspace tab count equals the number of tabs with
`isArchived = false` whose `groupId` belongs to a non-archived tab group of
the workspace; in particular, in a workspace with one archived and one active
group holding three non-archived tabs each, `getWorkSpaceCount` returns 3
while `getAllTabs` still returns all 6 tabs. -/
theorem getWorkSpaceCount_counts_active (db : DB) (wid : String) :
    getWorkSpaceCount db wid =
      (db.tabs.filter (fun t => !t.isArchived &&
        db.tabGroups.any (fun g =>
          g.workspaceId = wid && !g.isArchived && g.id = t.groupId))).length
    ∧ getWorkSpaceCount aggregateDB "w1" = 3
    ∧ (getAllTabs aggregateDB).length = 6 := by
  refine ⟨?_, by decide, by decide⟩
  simp only [getWorkSpaceCount, List.filter_filter]
  cases hAG : (db.tabGroups.filter
      (fun g => !g.isArchived && decide (g.workspaceId = wid))).isEmpty with
  | true =>
    simp only [hAG, if_true]
    have hnil := List.isEmpty_iff.mp hAG
    rw [List.filter_eq_nil_iff] at hnil
    have hzero : (db.tabs.filter (fun t => !t.isArchived &&
        db.tabGroups.any (fun g =>
          g.workspaceId = wid && !g.isArchived && g.id = t.groupId))) = [] := by
      rw [List.filter_eq_nil_iff]
      intro t _ hpred
      simp only [Bool.and_eq_true, List.any_eq_true, decide_eq_true_eq] at hpred
      obtain ⟨-, g, hg, hrest⟩ := hpred
      exact hnil g hg (by simp [hrest.1.1, hrest.1.2])
    rw [hzero]
    rfl
  | false =>
    simp only [hAG, Bool.false_eq_true, if_false]
    apply congrArg List.length
    apply List.filter_congr
    intro t _
    cases harch : t.isArchived with
    | true => simp [harch]
    | false =>
      simp only [harch, Bool.not_false, Bool.and_true, Bool.true_and]
      rw [Bool.eq_iff_iff, contains_map_id_eq_any, List.any_filter]
      simp only [List.any_eq_true, Bool.and_eq_true, decide_eq_true_eq,
        beq_iff_eq]
      constructor
      · rintro ⟨g, hg, hrest⟩
        exact ⟨g, hg, ⟨hrest.1.2, hrest.1.1⟩, hrest.2.symm⟩
      · rintro ⟨g, hg, hrest⟩
        exact ⟨g, hg, ⟨hrest.1.2, hrest.1.1⟩, hrest.2.symm⟩

/-- C6: the expiry sweep scans all tombstones and, tolerating per-item
deletion failures, removes exactly those with `deletedAt` more than 14 days
before `now` whose individual delete succeeded, leaves every non-expired item
(and every failed expired item) in place, returns the number of items actually
deleted, and returns `(0, unchanged store)` when nothing is expired. -/
theorem cleanup_removes_expired (db : DB) (now : Int) (deleteFails : String → Bool)
    (hnodup : (db.deletedItems.map (fun d => d.id)).Nodup) :
    (cleanupExpiredDeletedItems db now deleteFails).1 =
      ((db.deletedItems.filter (fun i => i.deletedAt < now - retentionPeriodMs)).filter
        (fun i => !deleteFails i.id)).length
    ∧ (cleanupExpiredDeletedItems db now deleteFails).2.deletedItems =
        db.deletedItems.filter (fun d =>
          !(decide (d.deletedAt < now - retentionPeriodMs) && !deleteFails d.id))
    ∧ (db.deletedItems.filter (fun i => i.deletedAt < now - retentionPeriodMs) = [] →
        cleanupExpiredDeletedItems db now deleteFails = (0, db)) := by
  refine ⟨?_, ?_, ?_⟩
  · simp only [cleanupExpiredDeletedItems, cleanup_foldl, Nat.zero_add]
  · simp only [cleanupExpiredDeletedItems, cleanup_foldl, Nat.zero_add]
    apply List.filter_congr
    intro x hx
    rw [Bool.eq_iff_iff]
    simp only [Bool.not_eq_true', List.any_eq_false, Bool.and_eq_false_iff,
      List.mem_filter, Bool.and_eq_true, decide_eq_true_eq, Bool.not_eq_false',
      decide_eq_false_iff_not, Bool.not_eq_true]
    constructor
    · intro hall
      by_cases hexp : x.deletedAt < now - retentionPeriodMs
      · right
        by_cases hfx : deleteFails x.id = true
        · exact hfx
        · exact absurd rfl (hall x ⟨⟨hx, hexp⟩, by simpa using hfx⟩)
      · left
        exact hexp
    · intro hor i hcond hid
      obtain ⟨⟨himem, hiexp⟩, hifail⟩ := hcond
      have : i = x := List.inj_on_of_nodup_map hnodup himem hx hid
      subst this
      rcases hor with h | h
      · exact h hiexp
      · rw [hifail] at h
        exact Bool.false_ne_true h
  · intro hexp
    simp only [cleanupExpiredDeletedItems, hexp, List.foldl_nil]

/-- C6, witnessed on a trash store with one expired and one fresh tombstone
and an engine that fails no delete. -/
theorem cleanup_removes_expired_witness :
    (cleanupExpiredDeletedItems sweepDB trashNow (fun _ => false)).1 =
      ((sweepDB.deletedItems.filter
          (fun i => i.deletedAt < trashNow - retentionPeriodMs)).filter
        (fun i => !(fun _ => false) i.id)).length
    ∧ (cleanupExpiredDeletedItems sweepDB trashNow (fun _ => false)).2.deletedItems =
        sweepDB.deletedItems.filter (fun d =>
          !(decide (d.deletedAt < trashNow - retentionPeriodMs) && !(fun _ => false) d.id))
    ∧ (sweepDB.deletedItems.filter
          (fun i => i.deletedAt < trashNow - retentionPeriodMs) = [] →
        cleanupExpiredDeletedItems sweepDB trashNow (fun _ => false) = (0, sweepDB)) :=
  cleanup_removes_expired sweepDB trashNow (fun _ => false) (by decide)

/-- C2: hard-deleting an entity (snapshotting its full record into the trash
and removing it from its primary store) and then restoring it within the
retention window, with all checks passing, puts a record equal to the
pre-delete snapshot back into the primary store and leaves no tombstone with
that id in the trash. -/
theorem hardDelete_restore_roundtrip (db : DB) (now now2 : Int) (loc : String)
    (e : EntityData)
    (htomb : db.deletedItems.any (fun d => d.id = entityId e) = false)
    (hret : isWithinRetentionPeriod now2 now = true)
    (hparent : parentExists db e = true)
    (hslot : slotUnique db e) :
    ∃ db1, hardDelete db now loc e = .ok db1 ∧
    ∃ db2, restoreDeletedItem db1 now2 (entityId e) = .ok (db2, true) ∧
      snapshotRestored db2 e ∧
      db2.deletedItems.any (fun d => d.id = entityId e) = false := by
  cases e with
  | workspace w =>
    simp only [entityId] at htomb ⊢
    refine ⟨{ db with
              workspaces := db.workspaces.filter (fun x => !(x.id = w.id)),
              deletedItems := db.deletedItems ++
                [{ id := w.id, type := .workspace, data := .workspace w,
                   deletedAt := now, originalLocation := loc, parentId := none }] },
            ?_, ?_⟩
    · simp [hardDelete, deleteWorkspace, createDeletedItem, entityId, typeOf,
        parentIdOf, htomb]
    · have hfind1 : (db.deletedItems ++
          ([{ id := w.id, type := .workspace, data := .workspace w,
              deletedAt := now, originalLocation := loc,
              parentId := none }] : List DeletedItem)).find?
          (fun d => d.id = w.id) =
          some { id := w.id, type := .workspace, data := .workspace w,
                 deletedAt := now, originalLocation := loc, parentId := none } :=
        findBy_append_singleton _ _ _
          (findBy_eq_none_of_any_eq_false _ _ htomb) (by simp)
      have hconf : ((db.workspaces.filter (fun x => !(x.id = w.id))).any
          (fun x => x.id = w.id)) = false :=
        any_filter_not_id (fun x : Workspace => x.id) db.workspaces w.id
      refine ⟨{ db with
                workspaces := db.workspaces.filter (fun x => !(x.id = w.id)) ++ [w],
                deletedItems := List.filter (fun d => !(d.id = w.id))
                  (db.deletedItems ++
                    [{ id := w.id, type := .workspace, data := .workspace w,
                       deletedAt := now, originalLocation := loc,
                       parentId := none }]) },
              ?_, ?_, ?_⟩
      · simp [restoreDeletedItem, hfind1, hret, checkIdConflict, hconf]
      · simp only [snapshotRestored]
        exact findBy_append_singleton _ _ _
          (findBy_eq_none_of_any_eq_false _ _ hconf) (by simp)
      · exact any_filter_not_id (fun d : DeletedItem => d.id) _ _
  | tabGroup g =>
    simp only [entityId] at htomb ⊢
    simp only [parentExists, validateWorkspaceExists] at hparent
    simp only [slotUnique] at hslot
    refine ⟨{ db with
              tabGroups := db.tabGroups.filter (fun x => !(x.id = g.id)),
              deletedItems := db.deletedItems ++
                [{ id := g.id, type := .tabGroup, data := .tabGroup g,
                   deletedAt := now, originalLocation := loc,
                   parentId := some g.workspaceId }] },
            ?_, ?_⟩
    · simp [hardDelete, deleteTabGroup, createDeletedItem, entityId, typeOf,
        parentIdOf, htomb]
    · have hfind1 : (db.deletedItems ++
          ([{ id := g.id, type := .tabGroup, data := .tabGroup g,
              deletedAt := now, originalLocation := loc,
              parentId := some g.workspaceId }] : List DeletedItem)).find?
          (fun d => d.id = g.id) =
          some { id := g.id, type := .tabGroup, data := .tabGroup g,
                 deletedAt := now, originalLocation := loc,
                 parentId := some g.workspaceId } :=
        findBy_append_singleton _ _ _
          (findBy_eq_none_of_any_eq_false _ _ htomb) (by simp)
      have hconf : ((db.tabGroups.filter (fun x => !(x.id = g.id))).any
          (fun x => x.id = g.id)) = false :=
        any_filter_not_id (fun x : TabGroup => x.id) db.tabGroups g.id
      have haddc : ((db.tabGroups.filter (fun x => !(x.id = g.id))).any
          (fun x => x.id = g.id ||
            (x.workspaceId = g.workspaceId && x.position = g.position))) = false := by
        rw [List.any_eq_false]
        intro x hxm
        rw [List.mem_filter] at hxm
        obtain ⟨hmem, hne⟩ := hxm
        simp only [Bool.not_eq_true', decide_eq_false_iff_not] at hne
        simp only [Bool.or_eq_true, Bool.and_eq_true, decide_eq_true_eq, not_or]
        exact ⟨hne, fun hc => hne (hslot x hmem hc.1 hc.2)⟩
      refine ⟨{ db with
                tabGroups := db.tabGroups.filter (fun x => !(x.id = g.id)) ++ [g],
                deletedItems := List.filter (fun d => !(d.id = g.id))
                  (db.deletedItems ++
                    [{ id := g.id, type := .tabGroup, data := .tabGroup g,
                       deletedAt := now, originalLocation := loc,
                       parentId := some g.workspaceId }]) },
              ?_, ?_, ?_⟩
      · simp [restoreDeletedItem, hfind1, hret, checkIdConflict, hconf,
          validateWorkspaceExists, hparent, haddc]
      · simp only [snapshotRestored]
        exact findBy_append_singleton _ _ _
          (findBy_eq_none_of_any_eq_false _ _ hconf) (by simp)
      · exact any_filter_not_id (fun d : DeletedItem => d.id) _ _
  | tab t =>
    simp only [entityId] at htomb ⊢
    simp only [parentExists, validateTabGroupExists] at hparent
    simp only [slotUnique] at hslot
    refine ⟨{ db with
              tabs := db.tabs.filter (fun x => !(x.id = t.id)),
              deletedItems := db.deletedItems ++
                [{ id := t.id, type := .tab, data := .tab t,
                   deletedAt := now, originalLocation := loc,
                   parentId := some t.groupId }] },
            ?_, ?_⟩
    · simp [hardDelete, deleteTab, createDeletedItem, entityId, typeOf,
        parentIdOf, htomb]
    · have hfind1 : (db.deletedItems ++
          ([{ id := t.id, type := .tab, data := .tab t,
              deletedAt := now, originalLocation := loc,
              parentId := some t.groupId }] : List DeletedItem)).find?
          (fun d => d.id = t.id) =
          some { id := t.id, type := .tab, data := .tab t,
                 deletedAt := now, originalLocation := loc,
                 parentId := some t.groupId } :=
        findBy_append_singleton _ _ _
          (findBy_eq_none_of_any_eq_false _ _ htomb) (by simp)
      have hconf : ((db.tabs.filter (fun x => !(x.id = t.id))).any
          (fun x => x.id = t.id)) = false :=
        any_filter_not_id (fun x : Tab => x.id) db.tabs t.id
      have haddc : ((db.tabs.filter (fun x => !(x.id = t.id))).any
          (fun x => x.id = t.id ||
            (x.groupId = t.groupId && x.position = t.position))) = false := by
        rw [List.any_eq_false]
        intro x hxm
        rw [List.mem_filter] at hxm
        obtain ⟨hmem, hne⟩ := hxm
        simp only [Bool.not_eq_true', decide_eq_false_iff_not] at hne
        simp only [Bool.or_eq_true, Bool.and_eq_true, decide_eq_true_eq, not_or]
        exact ⟨hne, fun hc => hne (hslot x hmem hc.1 hc.2)⟩
      refine ⟨{ db with
                tabs := db.tabs.filter (fun x => !(x.id = t.id)) ++ [t],
                deletedItems := List.filter (fun d => !(d.id = t.id))
                  (db.deletedItems ++
                    [{ id := t.id, type := .tab, data := .tab t,
                       deletedAt := now, originalLocation := loc,
                       parentId := some t.groupId }]) },
              ?_, ?_, ?_⟩
      · simp [restoreDeletedItem, hfind1, hret, checkIdConflict, hconf,
          validateTabGroupExists, hparent, haddc]
      · simp only [snapshotRestored]
        exact findBy_append_singleton _ _ _
          (findBy_eq_none_of_any_eq_false _ _ hconf) (by simp)
      · exact any_filter_not_id (fun d : DeletedItem => d.id) _ _

/-- C2, witnessed: hard delete of the active tab group of `aggregateDB`
followed by an immediate restore. -/
theorem hardDelete_restore_roundtrip_witness :
    ∃ db1, hardDelete aggregateDB 0 "Home" roundTripEntity = .ok db1 ∧
    ∃ db2, restoreDeletedItem db1 5 (entityId roundTripEntity) = .ok (db2, true) ∧
      snapshotRestored db2 roundTripEntity ∧
      db2.deletedItems.any (fun d => d.id = entityId roundTripEntity) = false :=
  hardDelete_restore_roundtrip aggregateDB 0 5 "Home" roundTripEntity
    (by decide) (by decide) (by decide)
    (by intro g' hmem h1 h2
        fin_cases hmem <;> simp_all [aggregateDB, roundTripEntity])

end Tabula
